import Mathlib

/-!
Verification of the raven-powerctl utility (src/tools/raven-powerctl/powerctl.c).

The program is modelled as a pure function from an environment (the outcome
of the privileged reboot syscall and the errno value observed afterwards,
together with the strerror table of the host) and an argument vector to a
process result: exit code, text printed on stdout, text printed on stderr,
and a trace of the side-effecting OS calls made (sync and the reboot
syscall), in order.

The argument vector is a list of `Option String`: `none` models a NULL
pointer in argv, matching the C checks `argc > 0 && argv[0]` and
`argc >= 2 && argv[1]`.
-/

namespace Powerctl

/-- Constant LINUX_REBOOT_MAGIC1 from linux/reboot.h (0xfee1dead). -/
def LINUX_REBOOT_MAGIC1 : Nat := 0xfee1dead

/-- Constant LINUX_REBOOT_MAGIC2 from linux/reboot.h (672274793). -/
def LINUX_REBOOT_MAGIC2 : Nat := 672274793

/-- Constant LINUX_REBOOT_CMD_RESTART from linux/reboot.h. -/
def LINUX_REBOOT_CMD_RESTART : Nat := 0x01234567

/-- Constant LINUX_REBOOT_CMD_POWER_OFF from linux/reboot.h. -/
def LINUX_REBOOT_CMD_POWER_OFF : Nat := 0x4321FEDC

/-- Constant LINUX_REBOOT_CMD_HALT from linux/reboot.h. -/
def LINUX_REBOOT_CMD_HALT : Nat := 0xCDEF0123

/-- Constant EPERM from errno.h. -/
def EPERM : Nat := 1

/-- Side-effecting OS call made by the program: a sync call, or the reboot
syscall with its magic numbers and command code. -/
inductive Event where
  | sync : Event
  | reboot_syscall (magic1 magic2 cmd : Nat) : Event
  deriving DecidableEq, Repr

/-- Environment of a run: the raw return value the reboot syscall would
produce, the errno value observed after a failing syscall, and the host
strerror table. -/
structure Env where
  reboot_rc : Int
  errno_val : Nat
  strerror : Nat → String

/-- Observable result of a run of the program: exit status, stdout text,
stderr text, and the ordered trace of sync and reboot-syscall events. -/
structure ProcResult where
  exit_code : Nat
  stdout : String
  stderr : String
  trace : List Event
  deriving DecidableEq, Repr

/-- C strrchr on a char list: returns the suffix of the list starting at the
last occurrence of the char, or `none` when the char does not occur. -/
def strrchr : List Char → Char → Option (List Char)
  | [], _ => none
  | a :: rest, c =>
    match strrchr rest c with
    | some r => some r
    | none => if a = c then some (a :: rest) else none

/-- Embeds `base_name` of powerctl.c: the last '/' is located with strrchr;
when found the string resumes one char after it, otherwise the whole path is
returned. -/
def base_name (path : String) : String :=
  match strrchr path.data '/' with
  | some slashSuffix => String.mk (slashSuffix.drop 1)
  | none => path

/-- Embeds `do_reboot` of powerctl.c: two sync calls, then the reboot
syscall; the return value is 0 when the syscall returned 0 and -1
otherwise. The second component is the trace of OS calls, in order. -/
def do_reboot (env : Env) (cmd : Nat) : Int × List Event :=
  let events := [Event.sync, Event.sync,
    Event.reboot_syscall LINUX_REBOOT_MAGIC1 LINUX_REBOOT_MAGIC2 cmd]
  (if env.reboot_rc = 0 then (0 : Int) else -1, events)

/-- Embeds `usage` of powerctl.c: the two-line usage message, with argv0
substituted for the %s format directive. -/
def usage_text (argv0 : String) : String :=
  "Usage: " ++ argv0 ++ " [reboot|poweroff|halt]\n" ++
  "Directly invokes the Linux reboot syscall (works without systemd).\n"

/-- The C test `argv[1][0] != '-'`, negated: true when the first char of the
string is a dash. An empty C string has first char NUL, which is not a
dash, so the empty string yields false. -/
def first_char_dash (s : String) : Bool :=
  match s.data with
  | c :: _ => c = '-'
  | [] => false

/-- Embeds the argv0 fallback of main: `(argc > 0 && argv[0]) ? argv[0] :
"raven-powerctl"`. -/
def resolve_argv0 (argv : List (Option String)) : String :=
  match argv with
  | some s :: _ => s
  | _ => "raven-powerctl"

/-- The first argument, when main would adopt it as the command: present
(argc >= 2), non-NULL, and not starting with a dash. -/
def arg1_taken (argv : List (Option String)) : Option String :=
  match argv.drop 1 with
  | some a :: _ => if first_char_dash a then none else some a
  | _ => none

/-- The command name main resolves: the adopted first argument when there is
one, otherwise the base name of argv0. -/
def resolve_cmd (argv : List (Option String)) : String :=
  match arg1_taken argv with
  | some a => a
  | none => base_name (resolve_argv0 argv)

/-- Embeds the strcmp chain of main assigning `reboot_cmd`: the action code
selected for a resolved command name, or `none` when no action matches. -/
def action_code (cmd : String) : Option Nat :=
  if cmd = "reboot" then some LINUX_REBOOT_CMD_RESTART
  else if cmd = "poweroff" then some LINUX_REBOOT_CMD_POWER_OFF
  else if cmd = "halt" then some LINUX_REBOOT_CMD_HALT
  else none

/-- True exactly on the three action names of the strcmp chain. -/
def is_action_name (s : String) : Bool :=
  s == "reboot" || s == "poweroff" || s == "halt"

/-- True exactly on the two help spellings of the strcmp chain. -/
def is_help_name (s : String) : Bool :=
  s == "-h" || s == "--help"

/-- Embeds `main` of powerctl.c. The name, command resolution, strcmp
dispatch, help and usage-error paths, reboot invocation and failure
reporting follow the C control flow; printing is accumulated in the stdout
and stderr fields and OS calls in the trace field. -/
def main (env : Env) (argv : List (Option String)) : ProcResult :=
  let argv0 := resolve_argv0 argv
  let name := base_name argv0
  let cmd := resolve_cmd argv
  match action_code cmd with
  | some code =>
    let r := do_reboot env code
    if r.1 = 0 then ⟨0, "", "", r.2⟩
    else
      let saved := env.errno_val
      let msg := name ++ ": reboot syscall failed: " ++ env.strerror saved ++ "\n"
      let hint := if saved = EPERM then name ++ ": are you root?\n" else ""
      ⟨1, "", msg ++ hint, r.2⟩
  | none =>
    if cmd = "-h" ∨ cmd = "--help" then ⟨0, usage_text argv0, "", []⟩
    else ⟨2, "", usage_text argv0, []⟩

/-- Environment in which the reboot syscall succeeds. -/
def env_ok : Env := ⟨0, 0, fun _ => "Success"⟩

/-- Environment in which the reboot syscall fails with EPERM. -/
def env_eperm : Env :=
  ⟨-1, 1, fun n => if n = 1 then "Operation not permitted" else "Unknown error"⟩

/-- Environment in which the reboot syscall fails with errno 5 (not EPERM). -/
def env_eio : Env :=
  ⟨-1, 5, fun n => if n = 5 then "Input output error" else "Unknown error"⟩

lemma is_help_name_iff (s : String) :
    is_help_name s = true ↔ (s = "-h" ∨ s = "--help") := by
  unfold is_help_name
  simp [beq_iff_eq]

lemma is_action_name_iff (s : String) :
    is_action_name s = true ↔ (s = "reboot" ∨ s = "poweroff" ∨ s = "halt") := by
  unfold is_action_name
  simp [beq_iff_eq, or_assoc]

lemma action_code_eq_none (s : String) (h : is_action_name s = false) :
    action_code s = none := by
  unfold action_code
  rw [is_action_name] at h
  simp only [Bool.or_eq_false_iff, beq_eq_false_iff_ne, ne_eq] at h
  rw [if_neg h.1.1, if_neg h.1.2, if_neg h.2]

lemma action_code_isSome_action (s : String) (code : Nat)
    (h : action_code s = some code) : is_action_name s = true := by
  by_cases ha : is_action_name s = true
  · exact ha
  · rw [action_code_eq_none s (by simpa using ha)] at h
    exact absurd h (by simp)

lemma main_help (env : Env) (argv : List (Option String))
    (h : resolve_cmd argv = "-h" ∨ resolve_cmd argv = "--help") :
    main env argv = ⟨0, usage_text (resolve_argv0 argv), "", []⟩ := by
  unfold main
  rcases h with h | h <;> rw [h] <;> rfl

lemma main_invalid (env : Env) (argv : List (Option String))
    (h : action_code (resolve_cmd argv) = none)
    (hh : ¬(resolve_cmd argv = "-h" ∨ resolve_cmd argv = "--help")) :
    main env argv = ⟨2, "", usage_text (resolve_argv0 argv), []⟩ := by
  simp only [main, h]
  rw [if_neg hh]

lemma main_action (env : Env) (argv : List (Option String)) (code : Nat)
    (h : action_code (resolve_cmd argv) = some code) :
    main env argv =
      if env.reboot_rc = 0 then
        ⟨0, "", "", [Event.sync, Event.sync,
          Event.reboot_syscall LINUX_REBOOT_MAGIC1 LINUX_REBOOT_MAGIC2 code]⟩
      else
        ⟨1, "",
          base_name (resolve_argv0 argv) ++ ": reboot syscall failed: " ++
            env.strerror env.errno_val ++ "\n" ++
            (if env.errno_val = EPERM then
              base_name (resolve_argv0 argv) ++ ": are you root?\n" else ""),
          [Event.sync, Event.sync,
            Event.reboot_syscall LINUX_REBOOT_MAGIC1 LINUX_REBOOT_MAGIC2 code]⟩ := by
  simp only [main, do_reboot, h]
  by_cases hrc : env.reboot_rc = 0
  · simp [hrc]
  · simp [hrc]

lemma get1_shape {argv : List (Option String)} {v : Option String}
    (h : argv.get? 1 = some v) : ∃ x t, argv = x :: v :: t := by
  match argv with
  | [] => simp at h
  | [x] => simp at h
  | x :: y :: t =>
    simp only [List.get?_cons_succ, List.get?_cons_zero, Option.some_inj] at h
    exact ⟨x, t, by rw [h]⟩

lemma strrchr_none_iff (s : List Char) (c : Char) :
    strrchr s c = none ↔ c ∉ s := by
  induction s with
  | nil => simp [strrchr]
  | cons a rest ih =>
    unfold strrchr
    cases hr : strrchr rest c with
    | some r =>
      have hmem : c ∈ rest := by
        by_contra hn
        rw [← ih] at hn
        exact absurd hr (by simp [hn])
      simp [hmem]
    | none =>
      have hnr : c ∉ rest := ih.mp hr
      by_cases hac : a = c
      · simp [hac]
      · rw [if_neg hac]
        constructor
        · intro _ hmem
          rcases List.mem_cons.mp hmem with h1 | h1
          · exact hac h1.symm
          · exact hnr h1
        · intro _
          rfl

lemma strrchr_some_spec (c : Char) :
    ∀ s r : List Char, strrchr s c = some r →
      ∃ pre t, s = pre ++ r ∧ r = c :: t ∧ c ∉ t := by
  intro s
  induction s with
  | nil => intro r h; simp [strrchr] at h
  | cons a rest ih =>
    intro r h
    unfold strrchr at h
    cases hr : strrchr rest c with
    | some r2 =>
      rw [hr, Option.some_inj] at h
      obtain ⟨pre, t, h1, h2, h3⟩ := ih r2 hr
      subst h
      exact ⟨a :: pre, t, by rw [h1]; rfl, h2, h3⟩
    | none =>
      rw [hr] at h
      by_cases hac : a = c
      · rw [if_pos hac, Option.some_inj] at h
        refine ⟨[], rest, by rw [h]; rfl, ?_, ?_⟩
        · rw [← h, hac]
        · exact (strrchr_none_iff rest c).mp hr
      · rw [if_neg hac] at h
        exact absurd h (by simp)

/-- C1: the exit status is 0 together with empty stdout and stderr when the
resolved command maps to an action and the privileged reboot call succeeds;
0 when the resolved command is a help request; 2 when the resolved command
maps to no action and is not a help request; and 1 when the resolved
command maps to an action and the privileged call fails. -/
theorem exit_code_contract (env : Env) (argv : List (Option String)) :
    (∀ code, action_code (resolve_cmd argv) = some code → env.reboot_rc = 0 →
      (main env argv).exit_code = 0 ∧ (main env argv).stdout = "" ∧
      (main env argv).stderr = "") ∧
    (is_help_name (resolve_cmd argv) = true → (main env argv).exit_code = 0) ∧
    (action_code (resolve_cmd argv) = none →
      is_help_name (resolve_cmd argv) = false → (main env argv).exit_code = 2) ∧
    (∀ code, action_code (resolve_cmd argv) = some code → env.reboot_rc ≠ 0 →
      (main env argv).exit_code = 1) := by
  refine ⟨?_, ?_, ?_, ?_⟩
  · intro code h hrc
    rw [main_action env argv code h, if_pos hrc]
    exact ⟨rfl, rfl, rfl⟩
  · intro hh
    rw [main_help env argv ((is_help_name_iff _).mp hh)]
  · intro h hh
    have hn : ¬(resolve_cmd argv = "-h" ∨ resolve_cmd argv = "--help") := by
      rw [← is_help_name_iff]
      simp [hh]
    rw [main_invalid env argv h hn]
  · intro code h hrc
    rw [main_action env argv code h, if_neg hrc]

/-- Witness for C1: the four cases of the exit-code contract at concrete
inputs, each obtained from the contract theorem itself. -/
theorem exit_code_contract_witness :
    ((main env_ok [some "/usr/sbin/poweroff"]).exit_code = 0 ∧
     (main env_ok [some "/usr/sbin/poweroff"]).stdout = "" ∧
     (main env_ok [some "/usr/sbin/poweroff"]).stderr = "") ∧
    (main env_ok [some "-h"]).exit_code = 0 ∧
    (main env_ok [some "prog", some "bogus"]).exit_code = 2 ∧
    (main env_eperm [some "reboot"]).exit_code = 1 :=
  ⟨(exit_code_contract env_ok [some "/usr/sbin/poweroff"]).1
      LINUX_REBOOT_CMD_POWER_OFF (by decide) (by decide),
   (exit_code_contract env_ok [some "-h"]).2.1 (by decide),
   (exit_code_contract env_ok [some "prog", some "bogus"]).2.2.1
      (by decide) (by decide),
   (exit_code_contract env_eperm [some "reboot"]).2.2.2
      LINUX_REBOOT_CMD_RESTART (by decide) (by decide)⟩

/-- C2 divergence: passing `-h` or `--help` as the first argument does not
reach the help path. The dash test on argv[1] rejects any argument starting
with a dash before the strcmp chain runs, so the command falls back to the
base name of argv0, matches nothing, and the program prints the usage
message to stderr and exits 2 instead of printing it to stdout and exiting
0. The resolved command is the program name, not the flag. -/
theorem help_flag_argument_divergence :
    resolve_cmd [some "raven-powerctl", some "-h"] = "raven-powerctl" ∧
    (main env_ok [some "raven-powerctl", some "-h"]).exit_code = 2 ∧
    (main env_ok [some "raven-powerctl", some "-h"]).stdout = "" ∧
    (main env_ok [some "raven-powerctl", some "-h"]).stderr =
      usage_text "raven-powerctl" ∧
    (main env_ok [some "raven-powerctl", some "--help"]).exit_code = 2 ∧
    (main env_ok [some "raven-powerctl", some "--help"]).stdout = "" := by
  decide

/-- C3 counterexample: with invocation name `/sbin/reboot` and first
argument `-x` (a dash argument other than the help flags), the program does
not yield a usage error: it falls back to the base name, resolves the
reboot action, and on a succeeding privileged call exits 0 having issued
the reboot syscall. -/
theorem dash_argument_counterexample :
    (main env_ok [some "/sbin/reboot", some "-x"]).exit_code = 0 ∧
    (main env_ok [some "/sbin/reboot", some "-x"]).stderr = "" ∧
    Event.reboot_syscall LINUX_REBOOT_MAGIC1 LINUX_REBOOT_MAGIC2
        LINUX_REBOOT_CMD_RESTART ∈
      (main env_ok [some "/sbin/reboot", some "-x"]).trace := by
  decide

/-- C3 amended: a first argument beginning with a dash is ignored by the
resolver, which falls back to the base name of argv0; the usage error
(exit 2, usage on stderr, nothing on stdout) occurs exactly when the
resolved command maps to no action and is not a help spelling. -/
theorem dash_argument_resolution (env : Env) (argv : List (Option String)) :
    (∀ a, argv.get? 1 = some (some a) → first_char_dash a = true →
      resolve_cmd argv = base_name (resolve_argv0 argv)) ∧
    (action_code (resolve_cmd argv) = none →
      is_help_name (resolve_cmd argv) = false →
      (main env argv).exit_code = 2 ∧ (main env argv).stdout = "" ∧
      (main env argv).stderr = usage_text (resolve_argv0 argv)) := by
  constructor
  · intro a h hd
    obtain ⟨x, t, rfl⟩ := get1_shape h
    simp [resolve_cmd, arg1_taken, hd]
  · intro h hh
    have hn : ¬(resolve_cmd argv = "-h" ∨ resolve_cmd argv = "--help") := by
      rw [← is_help_name_iff]
      simp [hh]
    rw [main_invalid env argv h hn]
    exact ⟨rfl, rfl, rfl⟩

/-- Witness for the amended C3: a dash argument falls back to the base
name, and a non-matching plain argument produces the usage error, both at
concrete inputs via the amended theorem. -/
theorem dash_argument_resolution_witness :
    resolve_cmd [some "/sbin/app", some "-q"] =
      base_name (resolve_argv0 [some "/sbin/app", some "-q"]) ∧
    ((main env_ok [some "raven-powerctl", some "bogus"]).exit_code = 2 ∧
     (main env_ok [some "raven-powerctl", some "bogus"]).stdout = "" ∧
     (main env_ok [some "raven-powerctl", some "bogus"]).stderr =
       usage_text (resolve_argv0 [some "raven-powerctl", some "bogus"])) :=
  ⟨(dash_argument_resolution env_ok [some "/sbin/app", some "-q"]).1
      "-q" (by decide) (by decide),
   (dash_argument_resolution env_ok [some "raven-powerctl", some "bogus"]).2
      (by decide) (by decide)⟩

/-- C4: a resolved command equal to reboot, poweroff or halt selects the
corresponding Linux reboot command code, and any resolved command that is
not one of the three action names selects no action. -/
theorem action_selection (argv : List (Option String)) :
    (resolve_cmd argv = "reboot" →
      action_code (resolve_cmd argv) = some LINUX_REBOOT_CMD_RESTART) ∧
    (resolve_cmd argv = "poweroff" →
      action_code (resolve_cmd argv) = some LINUX_REBOOT_CMD_POWER_OFF) ∧
    (resolve_cmd argv = "halt" →
      action_code (resolve_cmd argv) = some LINUX_REBOOT_CMD_HALT) ∧
    (is_action_name (resolve_cmd argv) = false →
      action_code (resolve_cmd argv) = none) := by
  refine ⟨?_, ?_, ?_, fun h => action_code_eq_none _ h⟩ <;>
    (intro h; rw [h]; decide)

/-- Witness for C4: the three action names and one non-action name, each
resolved from a concrete argument vector through the selection theorem. -/
theorem action_selection_witness :
    action_code (resolve_cmd [some "reboot"]) =
      some LINUX_REBOOT_CMD_RESTART ∧
    action_code (resolve_cmd [some "poweroff"]) =
      some LINUX_REBOOT_CMD_POWER_OFF ∧
    action_code (resolve_cmd [some "halt"]) = some LINUX_REBOOT_CMD_HALT ∧
    action_code (resolve_cmd [some "bogus"]) = none :=
  ⟨(action_selection [some "reboot"]).1 (by decide),
   (action_selection [some "poweroff"]).2.1 (by decide),
   (action_selection [some "halt"]).2.2.1 (by decide),
   (action_selection [some "bogus"]).2.2.2 (by decide)⟩

/-- C5: a first argument that is present, non-NULL and does not begin with
a dash is adopted as the command, taking precedence over the invocation
name; in every other case (dash argument, NULL argument, or no argument)
the command is the base name of argv0. -/
theorem resolver_precedence (argv : List (Option String)) :
    (∀ a, argv.get? 1 = some (some a) → first_char_dash a = false →
      resolve_cmd argv = a) ∧
    (arg1_taken argv = none →
      resolve_cmd argv = base_name (resolve_argv0 argv)) ∧
    (∀ a, argv.get? 1 = some (some a) → first_char_dash a = true →
      arg1_taken argv = none) ∧
    (argv.get? 1 = none → arg1_taken argv = none) ∧
    (argv.get? 1 = some none → arg1_taken argv = none) := by
  refine ⟨?_, ?_, ?_, ?_, ?_⟩
  · intro a h hd
    obtain ⟨x, t, rfl⟩ := get1_shape h
    simp [resolve_cmd, arg1_taken, hd]
  · intro h
    unfold resolve_cmd
    rw [h]
  · intro a h hd
    obtain ⟨x, t, rfl⟩ := get1_shape h
    simp [arg1_taken, hd]
  · intro h
    match argv with
    | [] => rfl
    | [x] => rfl
    | x :: y :: t => simp at h
  · intro h
    obtain ⟨x, t, rfl⟩ := get1_shape h
    rfl

/-- Witness for C5: precedence of a plain first argument and the three
fallback cases, at concrete argument vectors via the precedence theorem. -/
theorem resolver_precedence_witness :
    resolve_cmd [some "prog", some "halt"] = "halt" ∧
    resolve_cmd [some "/sbin/reboot", some "-f"] =
      base_name (resolve_argv0 [some "/sbin/reboot", some "-f"]) ∧
    arg1_taken [some "/sbin/reboot", some "-f"] = none ∧
    arg1_taken [some "prog"] = none ∧
    arg1_taken [some "prog", none] = none :=
  ⟨(resolver_precedence [some "prog", some "halt"]).1 "halt"
      (by decide) (by decide),
   (resolver_precedence [some "/sbin/reboot", some "-f"]).2.1 (by decide),
   (resolver_precedence [some "/sbin/reboot", some "-f"]).2.2.1 "-f"
      (by decide) (by decide),
   (resolver_precedence [some "prog"]).2.2.2.1 (by decide),
   (resolver_precedence [some "prog", none]).2.2.2.2 (by decide)⟩

/-- C6: the action invoker emits exactly two sync events followed by the
reboot syscall carrying the given action code (so both flushes precede the
privileged request), its result is 0 exactly when the syscall returned 0,
and on an action path main performs exactly the invoker trace. -/
theorem flush_before_syscall (env : Env) (cmd : Nat)
    (argv : List (Option String)) :
    (do_reboot env cmd).2 = [Event.sync, Event.sync,
      Event.reboot_syscall LINUX_REBOOT_MAGIC1 LINUX_REBOOT_MAGIC2 cmd] ∧
    (do_reboot env cmd).2.take 2 = [Event.sync, Event.sync] ∧
    (do_reboot env cmd).2.drop 2 =
      [Event.reboot_syscall LINUX_REBOOT_MAGIC1 LINUX_REBOOT_MAGIC2 cmd] ∧
    ((do_reboot env cmd).1 = 0 ↔ env.reboot_rc = 0) ∧
    (∀ code, action_code (resolve_cmd argv) = some code →
      (main env argv).trace = (do_reboot env code).2) := by
  refine ⟨rfl, rfl, rfl, ?_, ?_⟩
  · unfold do_reboot
    by_cases h : env.reboot_rc = 0
    · simp [h]
    · simp [h]
  · intro code h
    rw [main_action env argv code h]
    by_cases hrc : env.reboot_rc = 0
    · rw [if_pos hrc]
      simp [do_reboot]
    · rw [if_neg hrc]
      simp [do_reboot]

/-- Witness for C6: the trace identity of main and the invoker at a
concrete halt invocation, obtained from the invoker theorem. -/
theorem flush_before_syscall_witness :
    (main env_ok [some "halt"]).trace =
      (do_reboot env_ok LINUX_REBOOT_CMD_HALT).2 :=
  (flush_before_syscall env_ok LINUX_REBOOT_CMD_HALT [some "halt"]).2.2.2.2
    LINUX_REBOOT_CMD_HALT (by decide)

/-- C7: when the resolved command maps to an action and the privileged call
fails, main exits 1, prints nothing on stdout, and prints on stderr the
program name, the fixed failure message and the strerror text of the saved
errno, followed by the root hint exactly when the errno is EPERM. -/
theorem failure_diagnostic (env : Env) (argv : List (Option String))
    (code : Nat) (h : action_code (resolve_cmd argv) = some code)
    (hf : env.reboot_rc ≠ 0) :
    (main env argv).exit_code = 1 ∧ (main env argv).stdout = "" ∧
    (main env argv).stderr =
      base_name (resolve_argv0 argv) ++ ": reboot syscall failed: " ++
        env.strerror env.errno_val ++ "\n" ++
        (if env.errno_val = EPERM then
          base_name (resolve_argv0 argv) ++ ": are you root?\n" else "") := by
  rw [main_action env argv code h, if_neg hf]
  exact ⟨rfl, rfl, rfl⟩

/-- Witness for C7: the failure diagnostic at a concrete EPERM failure of a
reboot invocation, obtained from the diagnostic theorem. -/
theorem failure_diagnostic_witness :
    (main env_eperm [some "reboot"]).exit_code = 1 ∧
    (main env_eperm [some "reboot"]).stdout = "" ∧
    (main env_eperm [some "reboot"]).stderr =
      base_name (resolve_argv0 [some "reboot"]) ++
        ": reboot syscall failed: " ++
        env_eperm.strerror env_eperm.errno_val ++ "\n" ++
        (if env_eperm.errno_val = EPERM then
          base_name (resolve_argv0 [some "reboot"]) ++ ": are you root?\n"
        else "") :=
  failure_diagnostic env_eperm [some "reboot"] LINUX_REBOOT_CMD_RESTART
    (by decide) (by decide)

/-- C8: base_name returns the whole path when it contains no slash, and
otherwise the suffix after the last slash: the path splits as a prefix, a
slash, and the returned base name, which itself contains no slash. -/
theorem base_name_spec (p : String) :
    (('/' : Char) ∉ p.data → base_name p = p) ∧
    (('/' : Char) ∈ p.data →
      ∃ pre : List Char,
        p.data = pre ++ '/' :: (base_name p).data ∧
        ('/' : Char) ∉ (base_name p).data) := by
  constructor
  · intro h
    unfold base_name
    rw [(strrchr_none_iff p.data '/').mpr h]
  · intro h
    cases hs : strrchr p.data '/' with
    | none => exact absurd ((strrchr_none_iff p.data '/').mp hs) (by simp [h])
    | some r =>
      obtain ⟨pre, t, h1, h2, h3⟩ := strrchr_some_spec '/' p.data r hs
      subst h2
      unfold base_name
      rw [hs]
      exact ⟨pre, h1, h3⟩

/-- Witness for C8: the split of /usr/sbin/reboot around the last slash
with a slash-free base name, from the base-name theorem, together with the
concrete value of that base name. -/
theorem base_name_spec_witness :
    base_name "/usr/sbin/reboot" = "reboot" ∧
    (∃ pre : List Char,
      ("/usr/sbin/reboot" : String).data =
        pre ++ '/' :: (base_name "/usr/sbin/reboot").data ∧
      ('/' : Char) ∉ (base_name "/usr/sbin/reboot").data) :=
  ⟨by decide, (base_name_spec "/usr/sbin/reboot").2 (by decide)⟩

/-- C9: when the resolved command maps to no action, main performs no sync
and no reboot syscall (empty trace); any emitted OS event implies the
resolved command is one of the three action names. -/
theorem frame_no_side_effects (env : Env) (argv : List (Option String)) :
    (action_code (resolve_cmd argv) = none → (main env argv).trace = []) ∧
    (∀ e, e ∈ (main env argv).trace →
      is_action_name (resolve_cmd argv) = true) := by
  have key : action_code (resolve_cmd argv) = none →
      (main env argv).trace = [] := by
    intro h
    by_cases hh : resolve_cmd argv = "-h" ∨ resolve_cmd argv = "--help"
    · rw [main_help env argv hh]
    · rw [main_invalid env argv h hh]
  refine ⟨key, ?_⟩
  intro e he
  by_cases ha : is_action_name (resolve_cmd argv) = true
  · exact ha
  · rw [key (action_code_eq_none _ (by simpa using ha))] at he
    exact absurd he (by simp)

/-- Witness for C9: the empty trace on the help path and on the invalid
path at concrete inputs, via the frame theorem. -/
theorem frame_no_side_effects_witness :
    (main env_ok [some "-h"]).trace = [] ∧
    (main env_ok [some "prog", some "bogus"]).trace = [] :=
  ⟨(frame_no_side_effects env_ok [some "-h"]).1 (by decide),
   (frame_no_side_effects env_ok [some "prog", some "bogus"]).1 (by decide)⟩

/-- C10: with an empty argument vector or a NULL argv[0], the fixed name
raven-powerctl is substituted, and the whole run is identical to a run
invoked under that name; resolution and output stay well defined. -/
theorem null_argv0_fallback (env : Env) :
    resolve_argv0 [] = "raven-powerctl" ∧
    (∀ rest : List (Option String),
      resolve_argv0 (none :: rest) = "raven-powerctl") ∧
    main env [] = main env [some "raven-powerctl"] ∧
    (∀ rest : List (Option String),
      main env (none :: rest) = main env (some "raven-powerctl" :: rest)) :=
  ⟨rfl, fun _ => rfl, rfl, fun _ => rfl⟩

/-- Witness for C10: the run equalities at a concrete environment, via the
fallback theorem. -/
theorem null_argv0_fallback_witness :
    main env_ok [] = main env_ok [some "raven-powerctl"] ∧
    main env_ok [none, some "bogus"] =
      main env_ok [some "raven-powerctl", some "bogus"] :=
  ⟨(null_argv0_fallback env_ok).2.2.1,
   (null_argv0_fallback env_ok).2.2.2 [some "bogus"]⟩

end Powerctl
